import Mathlib

/-!
Shallow embedding of the rotation, handler-registry, filter and sink logic of
the `beans_logging` package (files `beans_logging/rotation.py`,
`beans_logging/_base.py`, `beans_logging/filter.py`, `beans_logging/sinks.py`).

Timestamps are modelled as integers counting microseconds on a uniform naive
timeline (Python `datetime.timestamp()` values are microsecond-exact floats in
the relevant range, and naive `datetime` arithmetic treats every day as exactly
86400 seconds).  Python floor division `//` and `%` on such values agree with
`/` and `%` on `Int` (Euclidean, hence floor for positive divisors), which is
what the embedding uses.
-/

def usPerSec : Int := 1000000

def usPerDay : Int := 86400000000

/-- `datetime.time` value: hour, minute, second, microsecond fields. -/
structure PyTime where
  hour : Nat
  minute : Nat
  second : Nat
  microsecond : Nat
deriving DecidableEq

/-- Microseconds since midnight denoted by a `datetime.time` value. -/
def PyTime.toUs (t : PyTime) : Int :=
  (t.hour : Int) * 3600000000 + (t.minute : Int) * 60000000
    + (t.second : Int) * 1000000 + (t.microsecond : Int)

/-- Midnight of the calendar day containing instant `t`.  On `Int`, `/` is
floor division for positive divisors, matching Python `//`. -/
def dayStart (t : Int) : Int := usPerDay * (t / usPerDay)

/-- The microsecond field of the instant `t` (microsecond within its second).
On `Int`, `%` is the nonnegative remainder for positive divisors, matching
Python `%`. -/
def microOfSecond (t : Int) : Int := t % usPerSec

/-- `t.replace(hour=tm.hour, minute=tm.minute, second=tm.second)`: the date and
the microsecond field of `t` are kept, only hour, minute and second are
replaced (`rotation.py` line 31). -/
def replace_hms (t : Int) (tm : PyTime) : Int :=
  dayStart t + (tm.hour : Int) * 3600000000 + (tm.minute : Int) * 60000000
    + (tm.second : Int) * 1000000 + microOfSecond t

/-- State of `RotationChecker` (`rotation.py`): the configured size limit and
the mutable next-cutover instant `_dtime_limit` (in microseconds). -/
structure RotationChecker where
  size_limit : Int
  dtime_limit : Int
deriving DecidableEq

/-- `RotationChecker.__init__` (`rotation.py` lines 20-40): `now` is
`datetime.datetime.now()` at construction time.  The initial `_dtime_limit` is
`now` with hour/minute/second replaced from `rotate_time` (microsecond kept),
plus one day when `now` is already past (or at) that instant. -/
def RotationChecker.init (rotate_size : Int) (rotate_time : PyTime) (now : Int) :
    RotationChecker :=
  let limit := replace_hms now rotate_time
  { size_limit := rotate_size
    dtime_limit := if limit ≤ now then limit + usPerDay else limit }

/-- `RotationChecker.should_rotate` (`rotation.py` lines 42-65).
`fileLen` is `file.tell()` after `file.seek(0, 2)` (the current file length),
`msgLen` is `len(message)`, `recTime` is `message.record["time"].timestamp()`.
Returns the boolean result together with the state after the call.
`timedelta(seconds=e).days` with `e >= 0` is floor division of the elapsed
microseconds by `usPerDay`. -/
def RotationChecker.should_rotate (c : RotationChecker) (msgLen fileLen : Nat)
    (recTime : Int) : Bool × RotationChecker :=
  if c.size_limit < (fileLen : Int) + (msgLen : Int) then
    (true, c)
  else
    let elapsed := recTime - c.dtime_limit
    if 0 ≤ elapsed then
      let elapsedDays := elapsed / usPerDay
      (true, { c with dtime_limit := c.dtime_limit + (elapsedDays + 1) * usPerDay })
    else
      (false, c)

/-- Modelled from the spec (section 8, property about `rotate_time`): the
initial cutover the specification describes, namely the construction day's
date combined with the full time-of-day `rotate_time` (microsecond included),
plus one day when the construction instant is already at or past it.  Used
only to compare the specified constructor against the implemented one. -/
def claimedInitLimit (rotate_time : PyTime) (now : Int) : Int :=
  let c := dayStart now + rotate_time.toUs
  if c ≤ now then c + usPerDay else c

/-!
Handler registry (`beans_logging/_base.py`).  The `handlers_map` attribute is
a Python dict from handler names to loguru handler ids; it is modelled as an
association list with pairwise distinct keys (a dict can never hold a key
twice).  `remove_handler` accepts `Union[str, None]` but branches on Python
truthiness and compares the argument against dict keys (strings) and dict
values (ints), so the argument is modelled as a dynamically typed value.
-/

/-- Python `str` whitespace (the ASCII part, which is all the source ever
feeds to `strip()`). -/
def isPySpace (c : Char) : Bool :=
  c == ' ' || c == '\t' || c == '\n' || c == '\r' || c == '\x0b' || c == '\x0c'

/-- Python `str.strip()`: drop whitespace from both ends. -/
def pyStrip (s : String) : String :=
  ⟨((s.data.dropWhile isPySpace).reverse.dropWhile isPySpace).reverse⟩

/-- Python `str.upper()` (ASCII characters, which is all the source uses). -/
def pyUpper (s : String) : String :=
  ⟨s.data.map Char.toUpper⟩

/-- Whether the second list begins with the first. -/
def listBeginsWith : List Char → List Char → Bool
  | [], _ => true
  | _ :: _, [] => false
  | a :: as, b :: bs => a == b && listBeginsWith as bs

/-- Python `s.startswith(pat)`. -/
def pyBeginsWith (s pat : String) : Bool :=
  listBeginsWith pat.data s.data

/-- A Python value that can be passed as the `handler` argument. -/
inductive PyVal where
  | str : String → PyVal
  | int : Int → PyVal
deriving DecidableEq

/-- Python truthiness of a `handler` argument (`if handler:`). -/
def PyVal.truthy : PyVal → Bool
  | .str s => !(s == "")
  | .int n => !(n == 0)

/-- Python `==` between a dynamic value and a dict key (a `str`). -/
def pyEqStr : PyVal → String → Bool
  | .str s, t => s == t
  | .int _, _ => false

/-- Python `==` between a dynamic value and a dict value (an `int`). -/
def pyEqInt : PyVal → Int → Bool
  | .int n, m => n == m
  | .str _, _ => false

/-- The `handlers_map` dict: handler name keys to loguru handler id values. -/
abbrev HandlersMap := List (String × Int)

/-- Python `dict.pop` of the first (and, in a dict, only) entry whose value
equals `v`; used by the `ID` branch of `remove_handler`. -/
def popFirstVal (v : PyVal) : HandlersMap → HandlersMap
  | [] => []
  | p :: rest => if pyEqInt v p.2 then rest else p :: popFirstVal v rest

/-- Python `dict[k] = v`: overwrite the value when the key is present,
append the entry otherwise. -/
def dictSet (m : HandlersMap) (k : String) (v : Int) : HandlersMap :=
  if m.any (fun p => p.1 == k) then
    m.map (fun p => if p.1 == k then (k, v) else p)
  else
    m ++ [(k, v)]

/-- Result of a registry call: the exception raised (if any, its message) and
the `handlers_map` contents when the call ends, whether normally or by
raising. -/
structure RemoveOutcome where
  raised : Option String
  handlers : HandlersMap
deriving DecidableEq

/-- `LoggerLoader.remove_handler` (`_base.py` lines 122-157), restricted to
its effect on `handlers_map` (the mirrored `logger.remove` calls touch only
loguru's internal state).  Control flow from the source: a truthy `handler`
with `handler_type` normalizing to `NAME` removes the entry and returns only
when the name is a key; in every non-raising case that does not hit a
`return`, execution falls through to `logger.remove()` plus
`handlers_map.clear()`.  In the `ID` branch a matching value is popped while
iterating `handlers_map.items()`, which makes the next iteration step raise
`RuntimeError` (dict changed size during iteration). -/
def remove_handler (m : HandlersMap) (handler : Option PyVal)
    (handler_type : String) : RemoveOutcome :=
  match handler with
  | some h =>
    if h.truthy then
      let ht := pyUpper (pyStrip handler_type)
      if ht == "NAME" then
        if m.any (fun p => pyEqStr h p.1) then
          { raised := none, handlers := m.filter (fun p => !(pyEqStr h p.1)) }
        else
          { raised := none, handlers := [] }
      else if ht == "ID" then
        if m.any (fun p => pyEqInt h p.2) then
          { raised := some "RuntimeError: dictionary changed size during iteration"
            handlers := popFirstVal h m }
        else
          { raised := none, handlers := [] }
      else
        { raised := some ("ValueError: `handler_type` argument value '" ++ ht
            ++ "' is invalid, must be 'NAME' or 'ID'!")
          handlers := m }
    else
      { raised := none, handlers := [] }
  | none => { raised := none, handlers := [] }

/-- Result of `add_custom_handler`: exception (if any), the `handlers_map`
when the call ends, and the returned handler id on success. -/
structure AddOutcome where
  raised : Option String
  handlers : HandlersMap
  ret : Option Int
deriving DecidableEq

/-- `LoggerLoader.add_custom_handler` (`_base.py` lines 418-509), restricted
to its effect on `handlers_map`.  The duplicate check on line 433 compares the
raw `handler_name` against the dict keys; only afterwards (line 440) is the
name normalized with `strip().upper()`.  A sink is synthesized from the
configuration when the normalized name begins with `STREAM` or `FILE`;
otherwise a missing explicit sink raises `ValueError` before `logger.add` is
reached.  `sinkProvided` states whether the caller passed a `sink` kwarg and
`newId` is the id `logger.add` returns on success; the map entry is written
with plain dict assignment, so it overwrites any entry already keyed by the
normalized name. -/
def add_custom_handler (m : HandlersMap) (handler_name : String)
    (sinkProvided : Bool) (newId : Int) : AddOutcome :=
  if m.any (fun p => p.1 == handler_name) then
    { raised := some ("ValueError: Custom handler '" ++ handler_name
        ++ "' already exists in logger!")
      handlers := m, ret := none }
  else
    let nm := pyUpper (pyStrip handler_name)
    if !sinkProvided && !(pyBeginsWith nm "STREAM") && !(pyBeginsWith nm "FILE") then
      { raised := some ("ValueError: `sink` argument is required for custom handler '"
          ++ nm ++ "'!")
        handlers := m, ret := none }
    else
      { raised := none, handlers := dictSet m nm newId, ret := some newId }

/-!
Log records and sink filters (`beans_logging/filter.py`,
`beans_logging/sinks.py`).  A loguru record is a dict; the filters read its
`level` entry (an object with `name` and `no`), its optional `level_short`
entry, and its `extra` dict.  The `extra` dict is modelled by the truthiness
of each stored value (only `record["extra"].get(key, False)` truthiness is
ever consulted).  Because `add_level_short` mutates the record dict in place,
each filter is modelled as returning both its boolean and the record as it
stands after the call.
-/

/-- The `record["level"]` object: `name` and `no` attributes. -/
structure LevelInfo where
  name : String
  no : Int
deriving DecidableEq

/-- A loguru record as the filters see it: `level`, the optional
`level_short` key, and the truthiness of each `extra` entry. -/
structure Record where
  level : LevelInfo
  level_short : Option String
  extra : List (String × Bool)
deriving DecidableEq

/-- `record["extra"].get(k, False)` evaluated for truthiness. -/
def Record.extraFlag (r : Record) (k : String) : Bool :=
  (r.extra.lookup k).getD false

/-- The short name `add_level_short` derives from a level name
(`filter.py` lines 15-24): the branch ladder on the level name, with
`record["level"].name[:5]` as the over-5-characters case. -/
def shortLevelName (name : String) : String :=
  if name == "SUCCESS" then "OK"
  else if name == "WARNING" then "WARN"
  else if name == "CRITICAL" then "CRIT"
  else if 5 < name.length then ⟨name.data.take 5⟩
  else name

/-- `add_level_short` (`filter.py` lines 4-26): when the record has no
`level_short` key yet, set it from the level name; the record dict is
mutated and returned. -/
def add_level_short (r : Record) : Record :=
  if r.level_short.isSome then r
  else { r with level_short := some (shortLevelName r.level.name) }

/-- `use_all_filter` (`filter.py` lines 29-44). -/
def use_all_filter (r : Record) : Bool × Record :=
  let r := add_level_short r
  if r.extraFlag "disable_all" then (false, r) else (true, r)

/-- `use_std_filter` (`filter.py` lines 47-63). -/
def use_std_filter (r : Record) : Bool × Record :=
  let a := use_all_filter r
  if !a.1 then (false, a.2)
  else if a.2.extraFlag "disable_std" then (false, a.2)
  else (true, a.2)

/-- `use_file_filter` (`filter.py` lines 66-82). -/
def use_file_filter (r : Record) : Bool × Record :=
  let a := use_all_filter r
  if !a.1 then (false, a.2)
  else if a.2.extraFlag "disable_file" then (false, a.2)
  else (true, a.2)

/-- `use_file_err_filter` (`filter.py` lines 85-101). -/
def use_file_err_filter (r : Record) : Bool × Record :=
  let a := use_all_filter r
  if !a.1 then (false, a.2)
  else if a.2.extraFlag "disable_file_err" then (false, a.2)
  else (true, a.2)

/-- `use_file_json_filter` (`filter.py` lines 104-120). -/
def use_file_json_filter (r : Record) : Bool × Record :=
  let a := use_all_filter r
  if !a.1 then (false, a.2)
  else if a.2.extraFlag "disable_file_json" then (false, a.2)
  else (true, a.2)

/-- `use_file_json_err_filter` (`filter.py` lines 123-139). -/
def use_file_json_err_filter (r : Record) : Bool × Record :=
  let a := use_all_filter r
  if !a.1 then (false, a.2)
  else if a.2.extraFlag "disable_file_json_err" then (false, a.2)
  else (true, a.2)

/-- The two standard streams. -/
inductive StdStream where
  | stdout
  | stderr
deriving DecidableEq

/-- `std_sink` (`sinks.py` lines 8-18): which stream receives the message.
Loguru's ERROR level has `no = 40`. -/
def std_sink (r : Record) : StdStream :=
  if r.level.no < 40 then StdStream.stdout else StdStream.stderr

/-!
Theorems.
-/

theorem usPerDay_pos : (0 : Int) < usPerDay := by decide

theorem int_lt_div_day_add_one_mul (a : Int) :
    a < (a / usPerDay + 1) * usPerDay := by
  unfold usPerDay; omega

theorem int_div_day_nonneg (a : Int) (h : 0 ≤ a) : 0 ≤ a / usPerDay := by
  unfold usPerDay; omega

/-- C1: for every RotationChecker with size limit S, pending message of length
`msgLen` and current file of length `fileLen`, `should_rotate` returns True
whenever `fileLen + msgLen > S`; consequently, whichever file the record is
appended to after the decision (the fresh file on rotation, the current file
otherwise) holds at most S bytes, except that the single record causing a
crossing may itself exceed S in the fresh file. -/
theorem should_rotate_size_crossing (c : RotationChecker) (msgLen fileLen : Nat)
    (recTime : Int) :
    (c.size_limit < (fileLen : Int) + (msgLen : Int) →
      (c.should_rotate msgLen fileLen recTime).1 = true) ∧
    ((if (c.should_rotate msgLen fileLen recTime).1 then (msgLen : Int)
        else (fileLen : Int) + (msgLen : Int)) ≤ c.size_limit ∨
      (if (c.should_rotate msgLen fileLen recTime).1 then (msgLen : Int)
        else (fileLen : Int) + (msgLen : Int)) = (msgLen : Int)) := by
  unfold RotationChecker.should_rotate
  by_cases hs : c.size_limit < (fileLen : Int) + (msgLen : Int)
  · simp [hs]
  · simp only [if_neg hs]
    by_cases ht : 0 ≤ recTime - c.dtime_limit
    · simp [ht]
    · simp only [if_neg ht]
      refine ⟨fun h => absurd h hs, Or.inl ?_⟩
      simp only [if_neg (Bool.false_ne_true)]
      linarith [not_lt.mp hs]

/-- C1 witness. -/
theorem should_rotate_size_crossing_w :
    ((RotationChecker.mk 10 0).should_rotate 20 0 0).1 = true :=
  (should_rotate_size_crossing ⟨10, 0⟩ 20 0 0).1 (by decide)

/-- C2: when the size condition does not hold, a record timestamp at or past
the stored cutover makes `should_rotate` return True and replace the cutover
by the previous cutover plus a whole (positive) number of days, strictly
exceeding the record's timestamp; a timestamp before the cutover makes it
return False and leaves the state unchanged. -/
theorem should_rotate_time_trigger (c : RotationChecker) (msgLen fileLen : Nat)
    (recTime : Int)
    (hsize : ¬ c.size_limit < (fileLen : Int) + (msgLen : Int)) :
    (c.dtime_limit ≤ recTime →
      (c.should_rotate msgLen fileLen recTime).1 = true ∧
      ∃ k : Int, 1 ≤ k ∧
        (c.should_rotate msgLen fileLen recTime).2.dtime_limit
          = c.dtime_limit + k * usPerDay ∧
        recTime < (c.should_rotate msgLen fileLen recTime).2.dtime_limit) ∧
    (recTime < c.dtime_limit →
      (c.should_rotate msgLen fileLen recTime).1 = false ∧
      (c.should_rotate msgLen fileLen recTime).2 = c) := by
  have heq : c.should_rotate msgLen fileLen recTime =
      if c.size_limit < (fileLen : Int) + (msgLen : Int) then (true, c)
      else if 0 ≤ recTime - c.dtime_limit then
        (true, { c with dtime_limit :=
          c.dtime_limit + ((recTime - c.dtime_limit) / usPerDay + 1) * usPerDay })
      else (false, c) := rfl
  rw [heq, if_neg hsize]
  constructor
  · intro hle
    have ht : 0 ≤ recTime - c.dtime_limit := by linarith
    rw [if_pos ht]
    refine ⟨rfl, (recTime - c.dtime_limit) / usPerDay + 1, ?_, rfl, ?_⟩
    · have := int_div_day_nonneg (recTime - c.dtime_limit) ht
      linarith
    · have := int_lt_div_day_add_one_mul (recTime - c.dtime_limit)
      show recTime < c.dtime_limit + ((recTime - c.dtime_limit) / usPerDay + 1) * usPerDay
      linarith
  · intro hlt
    have ht : ¬ 0 ≤ recTime - c.dtime_limit := by linarith
    rw [if_neg ht]
    exact ⟨rfl, rfl⟩

/-- C2 witness. -/
theorem should_rotate_time_trigger_w :
    ((RotationChecker.mk 100 0).should_rotate 1 0 0).1 = true ∧
    ∃ k : Int, 1 ≤ k ∧
      ((RotationChecker.mk 100 0).should_rotate 1 0 0).2.dtime_limit
        = 0 + k * usPerDay ∧
      (0 : Int) < ((RotationChecker.mk 100 0).should_rotate 1 0 0).2.dtime_limit :=
  (should_rotate_time_trigger ⟨100, 0⟩ 1 0 0 (by decide)).1 (by decide)

/-- C3 counterexample: a call in which rotation is triggered by the size
condition (here size limit 100, current length 0, message length 200) with a
record timestamp (50) at or past the stored cutover (0) returns True but
leaves the cutover unchanged, so after the call the stored cutover is NOT
strictly later than the evaluated record's timestamp, and the time condition
was not acted on. -/
theorem should_rotate_c3_cex :
    ((100 : Int) < (0 : Int) + (200 : Int)) ∧
    ((RotationChecker.mk 100 0).should_rotate 200 0 50).1 = true ∧
    ((RotationChecker.mk 100 0).dtime_limit ≤ (50 : Int)) ∧
    ¬ ((50 : Int) < ((RotationChecker.mk 100 0).should_rotate 200 0 50).2.dtime_limit) := by
  decide

/-- C3 amended: the size condition is evaluated first; when it holds,
`should_rotate` returns True immediately without touching the cutover (so the
time condition is not acted on).  After every call in which the size
condition does not hold, the stored cutover is strictly later than the
timestamp of the record just evaluated. -/
theorem should_rotate_cutover_invariant (c : RotationChecker)
    (msgLen fileLen : Nat) (recTime : Int) :
    (¬ c.size_limit < (fileLen : Int) + (msgLen : Int) →
      recTime < (c.should_rotate msgLen fileLen recTime).2.dtime_limit) ∧
    (c.size_limit < (fileLen : Int) + (msgLen : Int) →
      (c.should_rotate msgLen fileLen recTime).1 = true ∧
      (c.should_rotate msgLen fileLen recTime).2 = c) := by
  have heq : c.should_rotate msgLen fileLen recTime =
      if c.size_limit < (fileLen : Int) + (msgLen : Int) then (true, c)
      else if 0 ≤ recTime - c.dtime_limit then
        (true, { c with dtime_limit :=
          c.dtime_limit + ((recTime - c.dtime_limit) / usPerDay + 1) * usPerDay })
      else (false, c) := rfl
  rw [heq]
  constructor
  · intro hsize
    rw [if_neg hsize]
    by_cases ht : 0 ≤ recTime - c.dtime_limit
    · rw [if_pos ht]
      have := int_lt_div_day_add_one_mul (recTime - c.dtime_limit)
      show recTime < c.dtime_limit + ((recTime - c.dtime_limit) / usPerDay + 1) * usPerDay
      linarith
    · rw [if_neg ht]
      show recTime < c.dtime_limit
      linarith
  · intro hsize
    rw [if_pos hsize]
    exact ⟨rfl, rfl⟩

/-- C3 amended witness. -/
theorem should_rotate_cutover_invariant_w :
    (0 : Int) < ((RotationChecker.mk 100 0).should_rotate 1 0 0).2.dtime_limit :=
  (should_rotate_cutover_invariant ⟨100, 0⟩ 1 0 0).1 (by decide)

/-- C4 counterexample: construct at 1970-01-01 00:00:00.500000 (500000 us)
with `rotate_time` midnight.  `__init__` keeps the construction time's
microsecond field when it replaces hour/minute/second, so the stored cutover
is 1970-01-02 00:00:00.500000, not the claimed "construction day's date
combined with time-of-day T (plus one day)", which is 1970-01-02
00:00:00.000000 — and not the first occurrence of time-of-day T after
construction either. -/
theorem rotation_init_c4_cex :
    (RotationChecker.init 1000 ⟨0, 0, 0, 0⟩ 500000).dtime_limit
        ≠ claimedInitLimit ⟨0, 0, 0, 0⟩ 500000 ∧
    (RotationChecker.init 1000 ⟨0, 0, 0, 0⟩ 500000).dtime_limit = 86400500000 ∧
    claimedInitLimit ⟨0, 0, 0, 0⟩ 500000 = 86400000000 := by
  decide

/-- C4 amended: the constructor sets the initial cutover to the construction
instant with hour, minute and second replaced by those of `rotate_time` (the
construction time's microsecond field is kept, not replaced), and adds
exactly one day when the construction instant is at or past that instant;
hence the stored initial cutover is always strictly after the construction
instant. -/
theorem rotation_init_props (s : Int) (t : PyTime) (now : Int) :
    (RotationChecker.init s t now).size_limit = s ∧
    (RotationChecker.init s t now).dtime_limit
      = (if replace_hms now t ≤ now then replace_hms now t + usPerDay
         else replace_hms now t) ∧
    now < (RotationChecker.init s t now).dtime_limit := by
  refine ⟨rfl, rfl, ?_⟩
  have heq : (RotationChecker.init s t now).dtime_limit
      = (if replace_hms now t ≤ now then replace_hms now t + usPerDay
         else replace_hms now t) := rfl
  rw [heq]
  by_cases h : replace_hms now t ≤ now
  · rw [if_pos h]
    have h1 : usPerDay * (now / usPerDay) + now % usPerDay = now := Int.ediv_add_emod now usPerDay
    have h2 : now % usPerDay < usPerDay := Int.emod_lt_of_pos now usPerDay_pos
    have h3 : (0 : Int) ≤ now % usPerSec := Int.emod_nonneg now (by decide)
    have h4 : (0 : Int) ≤ (t.hour : Int) * 3600000000 :=
      mul_nonneg (Int.natCast_nonneg t.hour) (by norm_num)
    have h5 : (0 : Int) ≤ (t.minute : Int) * 60000000 :=
      mul_nonneg (Int.natCast_nonneg t.minute) (by norm_num)
    have h6 : (0 : Int) ≤ (t.second : Int) * 1000000 :=
      mul_nonneg (Int.natCast_nonneg t.second) (by norm_num)
    show now < dayStart now + (t.hour : Int) * 3600000000 + (t.minute : Int) * 60000000
      + (t.second : Int) * 1000000 + microOfSecond now + usPerDay
    unfold dayStart microOfSecond
    linarith
  · rw [if_neg h]
    linarith [lt_of_not_le h]

theorem any_filter_not (f : String × Int → Bool) (l : List (String × Int)) :
    (l.filter (fun p => !(f p))).any f = false := by
  induction l with
  | nil => rfl
  | cons p rest ih =>
    by_cases h : f p
    · simp [List.filter_cons, h, ih]
    · simp [List.filter_cons, h, ih]

/-- C5 counterexample: with handlers `default` and `FILE` registered, the
first `remove_handler("FILE", "NAME")` removes exactly the `FILE` entry, but
the second call does not find the name, falls through to the bulk-clear
branch, and removes the other registered handler `default` as well — the
second call is not free of side effects. -/
theorem remove_handler_c5_cex :
    (remove_handler [("default", 0), ("FILE", 1)] (some (PyVal.str "FILE")) "NAME").raised
        = none ∧
    (remove_handler [("default", 0), ("FILE", 1)] (some (PyVal.str "FILE")) "NAME").handlers
        = [("default", 0)] ∧
    (remove_handler [("default", 0)] (some (PyVal.str "FILE")) "NAME").raised = none ∧
    (remove_handler [("default", 0)] (some (PyVal.str "FILE")) "NAME").handlers = [] := by
  decide

/-- C5 amended: for every nonempty handler name `n` registered in the map,
the first `remove_handler(n, "NAME")` raises nothing and removes exactly the
entries keyed `n`; the second call with the same name raises nothing but
falls through to the bulk-clear branch and empties the whole map (it also
calls `logger.remove()` with no argument), removing every other registered
handler. -/
theorem remove_handler_name_twice (m : HandlersMap) (n : String) (hn : n ≠ "")
    (hmem : m.any (fun p => pyEqStr (PyVal.str n) p.1) = true) :
    (remove_handler m (some (PyVal.str n)) "NAME").raised = none ∧
    (remove_handler m (some (PyVal.str n)) "NAME").handlers
      = m.filter (fun p => !(pyEqStr (PyVal.str n) p.1)) ∧
    (remove_handler (m.filter (fun p => !(pyEqStr (PyVal.str n) p.1)))
        (some (PyVal.str n)) "NAME").raised = none ∧
    (remove_handler (m.filter (fun p => !(pyEqStr (PyVal.str n) p.1)))
        (some (PyVal.str n)) "NAME").handlers = [] := by
  have htr : (PyVal.str n).truthy = true := by
    simp [PyVal.truthy, hn]
  have hN : pyUpper (pyStrip "NAME") = "NAME" := by decide
  have hmem2 : (m.filter (fun p => !(pyEqStr (PyVal.str n) p.1))).any
      (fun p => pyEqStr (PyVal.str n) p.1) = false :=
    any_filter_not (fun p => pyEqStr (PyVal.str n) p.1) m
  simp [remove_handler, htr, hN, hmem, hmem2]

/-- C5 amended witness. -/
theorem remove_handler_name_twice_w :
    (remove_handler [("default", 0), ("A", 1)] (some (PyVal.str "A")) "NAME").raised
        = none ∧
    (remove_handler [("default", 0), ("A", 1)] (some (PyVal.str "A")) "NAME").handlers
      = [("default", 0), ("A", 1)].filter (fun p => !(pyEqStr (PyVal.str "A") p.1)) ∧
    (remove_handler ([("default", 0), ("A", 1)].filter
          (fun p => !(pyEqStr (PyVal.str "A") p.1)))
        (some (PyVal.str "A")) "NAME").raised = none ∧
    (remove_handler ([("default", 0), ("A", 1)].filter
          (fun p => !(pyEqStr (PyVal.str "A") p.1)))
        (some (PyVal.str "A")) "NAME").handlers = [] :=
  remove_handler_name_twice [("default", 0), ("A", 1)] "A" (by decide) (by decide)

/-- C6: for every nonempty handler name and every `handler_type` whose
stripped upper-cased value is neither `NAME` nor `ID`, `remove_handler`
raises `ValueError` and leaves `handlers_map` unchanged. -/
theorem remove_handler_invalid_type (m : HandlersMap) (s ht : String)
    (hs : s ≠ "")
    (h1 : pyUpper (pyStrip ht) ≠ "NAME")
    (h2 : pyUpper (pyStrip ht) ≠ "ID") :
    (remove_handler m (some (PyVal.str s)) ht).raised.isSome = true ∧
    (remove_handler m (some (PyVal.str s)) ht).handlers = m := by
  have htr : (PyVal.str s).truthy = true := by
    simp [PyVal.truthy, hs]
  have e1 : (pyUpper (pyStrip ht) == "NAME") = false := by
    simp only [beq_eq_false_iff_ne, ne_eq]
    exact h1
  have e2 : (pyUpper (pyStrip ht) == "ID") = false := by
    simp only [beq_eq_false_iff_ne, ne_eq]
    exact h2
  simp [remove_handler, htr, e1, e2]

/-- C6 witness. -/
theorem remove_handler_invalid_type_w :
    (remove_handler [("default", 0)] (some (PyVal.str "x")) "BOGUS").raised.isSome
        = true ∧
    (remove_handler [("default", 0)] (some (PyVal.str "x")) "BOGUS").handlers
        = [("default", 0)] :=
  remove_handler_invalid_type [("default", 0)] "x" "BOGUS" (by decide) (by decide)
    (by decide)

theorem filter_no_key (k : String) : ∀ (l : HandlersMap),
    l.any (fun p => p.1 == k) = false →
    l.filter (fun p => p.1 == k) = [] := by
  intro l
  induction l with
  | nil => intro _; rfl
  | cons p rest ih =>
    intro h
    simp only [List.any_cons, Bool.or_eq_false_iff] at h
    simp [List.filter_cons, h.1, ih h.2]

theorem map_overwrite_no_key (k : String) (v : Int) : ∀ (l : HandlersMap),
    l.any (fun p => p.1 == k) = false →
    l.map (fun p => if p.1 == k then (k, v) else p) = l := by
  intro l
  induction l with
  | nil => intro _; rfl
  | cons p rest ih =>
    intro h
    simp only [List.any_cons, Bool.or_eq_false_iff] at h
    rw [List.map_cons, if_neg (by rw [h.1]; exact Bool.false_ne_true), ih h.2]

theorem filter_map_overwrite (k : String) (v : Int) : ∀ (l : HandlersMap),
    (l.map Prod.fst).Nodup → l.any (fun p => p.1 == k) = true →
    (l.map (fun p => if p.1 == k then (k, v) else p)).filter (fun p => p.1 == k)
      = [(k, v)] := by
  intro l
  induction l with
  | nil => intro _ hk; simp at hk
  | cons p rest ih =>
    intro hnd hk
    simp only [List.map_cons, List.nodup_cons] at hnd
    by_cases hp : (p.1 == k) = true
    · have hpk : p.1 = k := by
        have := hp
        simpa [beq_iff_eq] using this
      have hrest : rest.any (fun q => q.1 == k) = false := by
        rw [List.any_eq_false]
        intro q hq
        intro hqk
        have hqk' : q.1 = k := by simpa [beq_iff_eq] using hqk
        exact hnd.1 (by
          rw [hpk, ← hqk']
          exact List.mem_map_of_mem Prod.fst hq)
      rw [List.map_cons, map_overwrite_no_key k v rest hrest]
      simp [List.filter_cons, hp, filter_no_key k rest hrest]
    · have hrest : rest.any (fun q => q.1 == k) = true := by
        simp only [List.any_cons, hp, Bool.false_or] at hk
        exact hk
      rw [List.map_cons]
      simp only [List.filter_cons, hp, if_false]
      simpa [hp] using ih hnd.2 hrest

theorem dictSet_filter_self (m : HandlersMap) (k : String) (v : Int)
    (hnd : (m.map Prod.fst).Nodup) :
    (dictSet m k v).filter (fun p => p.1 == k) = [(k, v)] := by
  unfold dictSet
  by_cases h : m.any (fun p => p.1 == k) = true
  · rw [if_pos h]
    exact filter_map_overwrite k v m hnd h
  · have h' : m.any (fun p => p.1 == k) = false := by
      cases hx : m.any (fun p => p.1 == k)
      · rfl
      · exact absurd hx h
    rw [if_neg (by rw [h']; exact Bool.false_ne_true)]
    rw [List.filter_append, filter_no_key k m h']
    simp [List.filter_cons]

/-- C7 counterexample: with `FILE` registered, calling `add_custom_handler`
with raw name `" file "` (which normalizes to the registered `FILE`)
succeeds instead of failing with the duplicate-name error — the duplicate
check runs on the raw name before `strip().upper()` normalization — and the
final dict assignment overwrites the registered `FILE` entry's id.  So a
successful registration is possible for a name that is already registered
(in the map's normalized form), refuting the claim. -/
theorem add_custom_handler_c7_cex :
    (add_custom_handler [("default", 0), ("FILE", 1)] " file " true 2).raised = none ∧
    pyUpper (pyStrip " file ") = "FILE" ∧
    ([("default", 0), ("FILE", 1)] : HandlersMap).any
        (fun p => p.1 == pyUpper (pyStrip " file ")) = true ∧
    (add_custom_handler [("default", 0), ("FILE", 1)] " file " true 2).handlers
      = [("default", 0), ("FILE", 2)] := by
  decide

/-- C7 amended: the duplicate check compares the raw argument against the
stored keys before normalization.  Calling `add_custom_handler` with a name
that is literally a key of the map raises `ValueError` and registers nothing;
when the call succeeds (raises nothing), the resulting map holds exactly one
entry for the normalized name, carrying the new id — overwriting any entry
that was already registered under that normalized name. -/
theorem add_custom_handler_props (m : HandlersMap) (handler_name : String)
    (sinkProvided : Bool) (newId : Int)
    (hnd : (m.map Prod.fst).Nodup) :
    (m.any (fun p => p.1 == handler_name) = true →
      (add_custom_handler m handler_name sinkProvided newId).raised.isSome = true ∧
      (add_custom_handler m handler_name sinkProvided newId).handlers = m) ∧
    ((add_custom_handler m handler_name sinkProvided newId).raised = none →
      (add_custom_handler m handler_name sinkProvided newId).handlers.filter
          (fun p => p.1 == pyUpper (pyStrip handler_name))
        = [(pyUpper (pyStrip handler_name), newId)]) := by
  constructor
  · intro h
    simp [add_custom_handler, h]
  · intro h
    by_cases h1 : m.any (fun p => p.1 == handler_name) = true
    · exfalso
      simp [add_custom_handler, h1] at h
    · have h1' : m.any (fun p => p.1 == handler_name) = false := by
        cases hx : m.any (fun p => p.1 == handler_name)
        · rfl
        · exact absurd hx h1
      by_cases h2 : (!sinkProvided
          && !(pyBeginsWith (pyUpper (pyStrip handler_name)) "STREAM")
          && !(pyBeginsWith (pyUpper (pyStrip handler_name)) "FILE")) = true
      · exfalso
        simp only [add_custom_handler, h1', Bool.false_eq_true, if_false, h2,
          if_true] at h
        exact Option.some_ne_none _ h
      · have heq : (add_custom_handler m handler_name sinkProvided newId).handlers
            = dictSet m (pyUpper (pyStrip handler_name)) newId := by
          simp only [add_custom_handler, h1', Bool.false_eq_true, if_false]
          rw [if_neg h2]
        rw [heq]
        exact dictSet_filter_self m (pyUpper (pyStrip handler_name)) newId hnd

/-- C7 amended witness. -/
theorem add_custom_handler_props_w :
    (add_custom_handler [("default", 0)] "default" true 5).raised.isSome = true ∧
    (add_custom_handler [("default", 0)] "default" true 5).handlers
      = [("default", 0)] :=
  (add_custom_handler_props [("default", 0)] "default" true 5 (by decide)).1
    (by decide)

theorem add_level_short_frame (r : Record) :
    (add_level_short r).level = r.level ∧ (add_level_short r).extra = r.extra := by
  unfold add_level_short
  by_cases h : r.level_short.isSome
  · rw [if_pos h]
    exact ⟨rfl, rfl⟩
  · rw [if_neg h]
    exact ⟨rfl, rfl⟩

theorem extraFlag_add_level_short (r : Record) (k : String) :
    (add_level_short r).extraFlag k = r.extraFlag k := by
  unfold Record.extraFlag
  rw [(add_level_short_frame r).2]

theorem use_all_filter_eq (r : Record) :
    use_all_filter r = (!(r.extraFlag "disable_all"), add_level_short r) := by
  show (if (add_level_short r).extraFlag "disable_all"
        then (false, add_level_short r) else (true, add_level_short r))
      = (!(r.extraFlag "disable_all"), add_level_short r)
  rw [extraFlag_add_level_short]
  cases h : r.extraFlag "disable_all" <;> simp

theorem use_std_filter_eq (r : Record) :
    use_std_filter r
      = ((!(r.extraFlag "disable_all") && !(r.extraFlag "disable_std")),
          add_level_short r) := by
  show (if !(use_all_filter r).1 then (false, (use_all_filter r).2)
        else if (use_all_filter r).2.extraFlag "disable_std"
          then (false, (use_all_filter r).2)
        else (true, (use_all_filter r).2)) = _
  rw [use_all_filter_eq]
  cases h1 : r.extraFlag "disable_all" <;> cases h2 : r.extraFlag "disable_std" <;>
    simp [extraFlag_add_level_short, h1, h2]

theorem use_file_filter_eq (r : Record) :
    use_file_filter r
      = ((!(r.extraFlag "disable_all") && !(r.extraFlag "disable_file")),
          add_level_short r) := by
  show (if !(use_all_filter r).1 then (false, (use_all_filter r).2)
        else if (use_all_filter r).2.extraFlag "disable_file"
          then (false, (use_all_filter r).2)
        else (true, (use_all_filter r).2)) = _
  rw [use_all_filter_eq]
  cases h1 : r.extraFlag "disable_all" <;> cases h2 : r.extraFlag "disable_file" <;>
    simp [extraFlag_add_level_short, h1, h2]

theorem use_file_err_filter_eq (r : Record) :
    use_file_err_filter r
      = ((!(r.extraFlag "disable_all") && !(r.extraFlag "disable_file_err")),
          add_level_short r) := by
  show (if !(use_all_filter r).1 then (false, (use_all_filter r).2)
        else if (use_all_filter r).2.extraFlag "disable_file_err"
          then (false, (use_all_filter r).2)
        else (true, (use_all_filter r).2)) = _
  rw [use_all_filter_eq]
  cases h1 : r.extraFlag "disable_all" <;>
    cases h2 : r.extraFlag "disable_file_err" <;>
    simp [extraFlag_add_level_short, h1, h2]

theorem use_file_json_filter_eq (r : Record) :
    use_file_json_filter r
      = ((!(r.extraFlag "disable_all") && !(r.extraFlag "disable_file_json")),
          add_level_short r) := by
  show (if !(use_all_filter r).1 then (false, (use_all_filter r).2)
        else if (use_all_filter r).2.extraFlag "disable_file_json"
          then (false, (use_all_filter r).2)
        else (true, (use_all_filter r).2)) = _
  rw [use_all_filter_eq]
  cases h1 : r.extraFlag "disable_all" <;>
    cases h2 : r.extraFlag "disable_file_json" <;>
    simp [extraFlag_add_level_short, h1, h2]

theorem use_file_json_err_filter_eq (r : Record) :
    use_file_json_err_filter r
      = ((!(r.extraFlag "disable_all") && !(r.extraFlag "disable_file_json_err")),
          add_level_short r) := by
  show (if !(use_all_filter r).1 then (false, (use_all_filter r).2)
        else if (use_all_filter r).2.extraFlag "disable_file_json_err"
          then (false, (use_all_filter r).2)
        else (true, (use_all_filter r).2)) = _
  rw [use_all_filter_eq]
  cases h1 : r.extraFlag "disable_all" <;>
    cases h2 : r.extraFlag "disable_file_json_err" <;>
    simp [extraFlag_add_level_short, h1, h2]

/-- C8: filter composition is conjunctive — every sink-class filter accepts a
record exactly when the record's extra map holds no true `disable_all` flag
and no true `disable_<class>` flag for its class; in particular a record with
`disable_file=true` and no other disable flags passes the std-class filter
and is rejected by the file-class filter. -/
theorem filter_composition (r : Record) :
    (use_all_filter r).1 = !(r.extraFlag "disable_all") ∧
    (use_std_filter r).1
      = (!(r.extraFlag "disable_all") && !(r.extraFlag "disable_std")) ∧
    (use_file_filter r).1
      = (!(r.extraFlag "disable_all") && !(r.extraFlag "disable_file")) ∧
    (use_file_err_filter r).1
      = (!(r.extraFlag "disable_all") && !(r.extraFlag "disable_file_err")) ∧
    (use_file_json_filter r).1
      = (!(r.extraFlag "disable_all") && !(r.extraFlag "disable_file_json")) ∧
    (use_file_json_err_filter r).1
      = (!(r.extraFlag "disable_all") && !(r.extraFlag "disable_file_json_err")) ∧
    (r.extraFlag "disable_file" = true → r.extraFlag "disable_all" = false →
      r.extraFlag "disable_std" = false →
      (use_std_filter r).1 = true ∧ (use_file_filter r).1 = false) := by
  refine ⟨by rw [use_all_filter_eq], by rw [use_std_filter_eq],
    by rw [use_file_filter_eq], by rw [use_file_err_filter_eq],
    by rw [use_file_json_filter_eq], by rw [use_file_json_err_filter_eq],
    ?_⟩
  intro hfile hall hstd
  rw [use_std_filter_eq, use_file_filter_eq]
  simp [hfile, hall, hstd]

/-- C8 witness. -/
theorem filter_composition_w :
    (use_std_filter ⟨⟨"INFO", 20⟩, none, [("disable_file", true)]⟩).1 = true ∧
    (use_file_filter ⟨⟨"INFO", 20⟩, none, [("disable_file", true)]⟩).1 = false :=
  (filter_composition ⟨⟨"INFO", 20⟩, none, [("disable_file", true)]⟩).2.2.2.2.2.2
    (by decide) (by decide) (by decide)

/-- C9 counterexample: evaluating `use_all_filter` on a record without a
`level_short` key does not leave the record unchanged — it adds the
`level_short` field (here set to `INFO`), so the filters are not pure. -/
theorem filter_purity_c9_cex :
    (use_all_filter ⟨⟨"INFO", 20⟩, none, []⟩).2 ≠ ⟨⟨"INFO", 20⟩, none, []⟩ ∧
    (use_all_filter ⟨⟨"INFO", 20⟩, none, []⟩).2.level_short = some "INFO" := by
  decide

/-- C9 amended: every sink filter returns a boolean, but evaluation mutates
the record exactly as `add_level_short` does: when the record lacks the
`level_short` key the field is added (derived from the level name), and
nothing else changes — the `level` and `extra` fields are untouched, and a
record already carrying `level_short` is returned unchanged. -/
theorem filter_effect (r : Record) :
    (use_all_filter r).2 = add_level_short r ∧
    (use_std_filter r).2 = add_level_short r ∧
    (use_file_filter r).2 = add_level_short r ∧
    (use_file_err_filter r).2 = add_level_short r ∧
    (use_file_json_filter r).2 = add_level_short r ∧
    (use_file_json_err_filter r).2 = add_level_short r ∧
    (add_level_short r).level = r.level ∧
    (add_level_short r).extra = r.extra ∧
    (r.level_short.isSome = true → add_level_short r = r) ∧
    (r.level_short = none →
      (add_level_short r).level_short = some (shortLevelName r.level.name)) := by
  refine ⟨by rw [use_all_filter_eq], by rw [use_std_filter_eq],
    by rw [use_file_filter_eq], by rw [use_file_err_filter_eq],
    by rw [use_file_json_filter_eq], by rw [use_file_json_err_filter_eq],
    (add_level_short_frame r).1, (add_level_short_frame r).2, ?_, ?_⟩
  · intro h
    unfold add_level_short
    rw [if_pos h]
  · intro h
    unfold add_level_short
    rw [if_neg (by rw [h]; simp)]

/-- C9 amended witness. -/
theorem filter_effect_w :
    add_level_short ⟨⟨"INFO", 20⟩, some "X", []⟩ = ⟨⟨"INFO", 20⟩, some "X", []⟩ :=
  (filter_effect ⟨⟨"INFO", 20⟩, some "X", []⟩).2.2.2.2.2.2.2.2.1 (by decide)

/-- C10: `std_sink` routes every message to exactly one of the two standard
streams — stdout exactly when the record's numeric level is strictly below
40 (loguru's ERROR level number), stderr exactly when it is 40 or more. -/
theorem std_sink_routing (r : Record) :
    (std_sink r = StdStream.stdout ↔ r.level.no < 40) ∧
    (std_sink r = StdStream.stderr ↔ 40 ≤ r.level.no) ∧
    StdStream.stdout ≠ StdStream.stderr := by
  unfold std_sink
  by_cases h : r.level.no < 40
  · rw [if_pos h]
    exact ⟨⟨fun _ => h, fun _ => rfl⟩,
      ⟨fun he => absurd he (by decide), fun hge => absurd h (not_lt.mpr hge)⟩,
      by decide⟩
  · rw [if_neg h]
    exact ⟨⟨fun he => absurd he (by decide), fun hlt => absurd hlt h⟩,
      ⟨fun _ => not_lt.mp h, fun _ => rfl⟩,
      by decide⟩
